import Mathlib

/-!
Shallow embedding of `src/ansi2png.c` (jquast/modem.xyz): a command-line
wrapper that renders ANSI art to PNG through the external libansilove
library.  The wrapper's own logic -- argument checking, environment-variable
resolution into an options structure, a case-insensitive font-name table
lookup, and a linear error-checked pipeline of library calls -- is embedded
as pure Lean functions.  The external library is a black box: its calls are
modelled by success flags (`AnsiloveLib`) and its numeric constants
(`ANSILOVE_FONT_*`, `ANSILOVE_MODE_*`) by distinct natural numbers, as the
header is not part of this repository.
-/

namespace Ansi2png

/-! ### External library constants (from the libansilove header, not part of
this repository: distinct identifiers whose exact numeric values the wrapper
never inspects). -/

def ANSILOVE_FONT_CP437 : Nat := 1
def ANSILOVE_FONT_CP437_80x50 : Nat := 2
def ANSILOVE_FONT_CP737 : Nat := 3
def ANSILOVE_FONT_CP775 : Nat := 4
def ANSILOVE_FONT_CP850 : Nat := 5
def ANSILOVE_FONT_CP852 : Nat := 6
def ANSILOVE_FONT_CP855 : Nat := 7
def ANSILOVE_FONT_CP857 : Nat := 8
def ANSILOVE_FONT_CP860 : Nat := 9
def ANSILOVE_FONT_CP861 : Nat := 10
def ANSILOVE_FONT_CP862 : Nat := 11
def ANSILOVE_FONT_CP863 : Nat := 12
def ANSILOVE_FONT_CP865 : Nat := 13
def ANSILOVE_FONT_CP866 : Nat := 14
def ANSILOVE_FONT_CP869 : Nat := 15
def ANSILOVE_FONT_TERMINUS : Nat := 16
def ANSILOVE_FONT_SPLEEN : Nat := 17
def ANSILOVE_FONT_MICROKNIGHT : Nat := 18
def ANSILOVE_FONT_MICROKNIGHT_PLUS : Nat := 19
def ANSILOVE_FONT_MOSOUL : Nat := 20
def ANSILOVE_FONT_POT_NOODLE : Nat := 21
def ANSILOVE_FONT_TOPAZ : Nat := 22
def ANSILOVE_FONT_TOPAZ_PLUS : Nat := 23
def ANSILOVE_FONT_TOPAZ500 : Nat := 24
def ANSILOVE_FONT_TOPAZ500_PLUS : Nat := 25

def ANSILOVE_MODE_CED : Nat := 1
def ANSILOVE_MODE_TRANSPARENT : Nat := 2
def ANSILOVE_MODE_WORKBENCH : Nat := 3

/-! ### C standard-library primitives used by the wrapper. -/

/-- ASCII `tolower` in the C locale: maps A-Z to a-z, leaves everything
else unchanged. -/
def asciiLower (c : Char) : Char :=
  if 'A' ≤ c ∧ c ≤ 'Z' then Char.ofNat (c.toNat + 32) else c

/-- Case-folded character sequence of a string (the byte sequence that
`strcasecmp` effectively compares). -/
def caseFold (s : String) : List Char := s.data.map asciiLower

/-- `strcasecmp(a, b) == 0`: case-insensitive string equality. -/
def strcaseEq (a b : String) : Bool := caseFold a = caseFold b

/-- Value of a decimal digit run: `atoi`'s accumulation loop, stopping at
the first non-digit. -/
def digitsVal : List Char → Nat → Nat
  | c :: cs, acc => if c.isDigit then digitsVal cs (acc * 10 + (c.toNat - 48)) else acc
  | [], acc => acc

/-- `atoi` on a character list: skip leading whitespace, read an optional
sign, then a digit run; anything non-numeric yields 0. -/
def atoiChars : List Char → Int
  | [] => 0
  | c :: cs =>
    if c = ' ' ∨ c = '\t' ∨ c = '\n' ∨ c = '\x0b' ∨ c = '\x0c' ∨ c = '\x0d' then
      atoiChars cs
    else if c = '-' then -(digitsVal cs 0 : Int)
    else if c = '+' then (digitsVal cs 0 : Int)
    else (digitsVal (c :: cs) 0 : Int)

/-- C `atoi`. -/
def atoi (s : String) : Int := atoiChars s.data

/-- The C cast `(uint8_t) x` on an int value: reduction modulo 2^8. -/
def uint8OfInt (x : Int) : Nat := (x % 256).toNat

/-- The C cast `(int16_t) x` on an int value: reduction to the signed
16-bit range. -/
def int16OfInt (x : Int) : Int :=
  let m := x % 65536
  if 32768 ≤ m then m - 65536 else m

/-! ### Data model. -/

/-- The fields of `struct ansilove_options` the wrapper assigns.  Machine
integers are carried as `Nat`/`Int` with the casts made explicit at the
assignment sites, exactly where the source casts. -/
structure Options where
  font : Nat
  scale_factor : Nat
  bits : Nat
  columns : Int
  mode : Nat
  icecolors : Bool
  deriving Repr, DecidableEq

/-- One diagnostic line written to the error stream; each constructor is
one `fprintf(stderr, ...)` site of the source, carrying its format
arguments. -/
inductive Msg where
  | usage
  | initFailed
  | unknownFont (name : String)
  | loadFailed (err : String)
  | renderFailed (err : String)
  | saveFailed (err : String)
  deriving Repr, DecidableEq

/-- The exact text each diagnostic renders to, from the source's format
strings. -/
def Msg.text : Msg → String
  | .usage => "usage: ansi2png INPUT OUTPUT.png\n"
  | .initFailed => "ansi2png: init failed\n"
  | .unknownFont n => "ansi2png: unknown font \x27" ++ n ++ "\x27, using CP437\n"
  | .loadFailed e => "ansi2png: load failed: " ++ e ++ "\n"
  | .renderFailed e => "ansi2png: render failed: " ++ e ++ "\n"
  | .saveFailed e => "ansi2png: save failed: " ++ e ++ "\n"

/-- One call into the external library. -/
inductive LibCall where
  | init
  | load (path : String)
  | render
  | save (path : String)
  | clean
  deriving Repr, DecidableEq

/-- Behaviour of the external library during one run: whether each
lifecycle call succeeds, the error string it reports, and the default
option values `ansilove_init` fills in. -/
structure AnsiloveLib where
  initOk : Bool
  loadOk : Bool
  renderOk : Bool
  saveOk : Bool
  errStr : String
  defaults : Options

/-- Observable outcome of one run of the program. -/
structure RunResult where
  exitCode : Nat
  stderrLines : List Msg
  stdoutLines : List Msg
  calls : List LibCall
  filesWritten : List String
  finalOptions : Option Options
  deriving Repr

/-! ### The font table and lookup (`font_map`, `lookup_font`). -/

def font_map : List (String × Nat) :=
  [ ("CP437", ANSILOVE_FONT_CP437),
    ("CP437_80x50", ANSILOVE_FONT_CP437_80x50),
    ("CP737", ANSILOVE_FONT_CP737),
    ("CP775", ANSILOVE_FONT_CP775),
    ("CP850", ANSILOVE_FONT_CP850),
    ("CP852", ANSILOVE_FONT_CP852),
    ("CP855", ANSILOVE_FONT_CP855),
    ("CP857", ANSILOVE_FONT_CP857),
    ("CP860", ANSILOVE_FONT_CP860),
    ("CP861", ANSILOVE_FONT_CP861),
    ("CP862", ANSILOVE_FONT_CP862),
    ("CP863", ANSILOVE_FONT_CP863),
    ("CP865", ANSILOVE_FONT_CP865),
    ("CP866", ANSILOVE_FONT_CP866),
    ("CP869", ANSILOVE_FONT_CP869),
    ("TERMINUS", ANSILOVE_FONT_TERMINUS),
    ("SPLEEN", ANSILOVE_FONT_SPLEEN),
    ("MICROKNIGHT", ANSILOVE_FONT_MICROKNIGHT),
    ("MICROKNIGHT_PLUS", ANSILOVE_FONT_MICROKNIGHT_PLUS),
    ("MOSOUL", ANSILOVE_FONT_MOSOUL),
    ("POT_NOODLE", ANSILOVE_FONT_POT_NOODLE),
    ("TOPAZ", ANSILOVE_FONT_TOPAZ),
    ("TOPAZ_PLUS", ANSILOVE_FONT_TOPAZ_PLUS),
    ("TOPAZ500", ANSILOVE_FONT_TOPAZ500),
    ("TOPAZ500_PLUS", ANSILOVE_FONT_TOPAZ500_PLUS) ]

/-- The scanning loop of `lookup_font`: first table entry whose name
matches case-insensitively. -/
def lookupFontIn : List (String × Nat) → String → Option Nat
  | [], _ => none
  | (n, v) :: rest, name =>
    if strcaseEq name n then some v else lookupFontIn rest name

/-- `lookup_font`: NULL argument returns the CP437 default silently; a
non-NULL name is scanned against the table; an unmatched name emits one
warning to the error stream and falls back to CP437. -/
def lookup_font : Option String → Nat × List Msg
  | none => (ANSILOVE_FONT_CP437, [])
  | some name =>
    match lookupFontIn font_map name with
    | some v => (v, [])
    | none => (ANSILOVE_FONT_CP437, [Msg.unknownFont name])

/-! ### Environment-variable resolution (main, lines 89-115). -/

/-- The environment: `getenv`. -/
def Env : Type := String → Option String

/-- The sequence of option assignments in `main` after a successful init:
font lookup, the three `atoi`-parsed integers with their casts, the
case-insensitive mode match, and the exact-match iCE-colors flag.  Returns
the populated options and the diagnostics emitted while populating (only
the font lookup can emit one). -/
def populateOptions (env : Env) (d : Options) : Options × List Msg :=
  let fw := lookup_font (env "ANSILOVE_FONT")
  let o1 := { d with font := fw.1 }
  let o2 := match env "ANSILOVE_SCALE" with
    | some v => { o1 with scale_factor := uint8OfInt (atoi v) }
    | none => o1
  let o3 := match env "ANSILOVE_BITS" with
    | some v => { o2 with bits := uint8OfInt (atoi v) }
    | none => o2
  let o4 := match env "ANSILOVE_COLUMNS" with
    | some v => { o3 with columns := int16OfInt (atoi v) }
    | none => o3
  let o5 := match env "ANSILOVE_MODE" with
    | some v =>
      if strcaseEq v "ced" then { o4 with mode := ANSILOVE_MODE_CED }
      else if strcaseEq v "transparent" then { o4 with mode := ANSILOVE_MODE_TRANSPARENT }
      else if strcaseEq v "workbench" then { o4 with mode := ANSILOVE_MODE_WORKBENCH }
      else o4
    | none => o4
  let o6 := match env "ANSILOVE_ICECOLORS" with
    | some v => if v = "1" then { o5 with icecolors := true } else o5
    | none => o5
  (o6, fw.2)

/-! ### The pipeline (`main`). -/

/-- `main`: `argv` is the full argument vector (program name included, so
the source's `argc` is `argv.length`).  Wrong argument count prints the
usage line and exits 1 before any library call; a failed init prints its
message and exits 1 with no context to release; afterwards the populated
options drive load, render and save in order, each failure printing one
diagnostic with the library's error string, releasing the context and
exiting 1; on full success the output file is written and the context
released before exiting 0. -/
def run (argv : List String) (env : Env) (lib : AnsiloveLib) : RunResult :=
  if argv.length ≠ 3 then
    { exitCode := 1, stderrLines := [Msg.usage], stdoutLines := [],
      calls := [], filesWritten := [], finalOptions := none }
  else if lib.initOk = false then
    { exitCode := 1, stderrLines := [Msg.initFailed], stdoutLines := [],
      calls := [LibCall.init], filesWritten := [], finalOptions := none }
  else
    let inPath := argv.getD 1 ""
    let outPath := argv.getD 2 ""
    let po := populateOptions env lib.defaults
    if lib.loadOk = false then
      { exitCode := 1, stderrLines := po.2 ++ [Msg.loadFailed lib.errStr],
        stdoutLines := [],
        calls := [LibCall.init, LibCall.load inPath, LibCall.clean],
        filesWritten := [], finalOptions := some po.1 }
    else if lib.renderOk = false then
      { exitCode := 1, stderrLines := po.2 ++ [Msg.renderFailed lib.errStr],
        stdoutLines := [],
        calls := [LibCall.init, LibCall.load inPath, LibCall.render, LibCall.clean],
        filesWritten := [], finalOptions := some po.1 }
    else if lib.saveOk = false then
      { exitCode := 1, stderrLines := po.2 ++ [Msg.saveFailed lib.errStr],
        stdoutLines := [],
        calls := [LibCall.init, LibCall.load inPath, LibCall.render,
                  LibCall.save outPath, LibCall.clean],
        filesWritten := [], finalOptions := some po.1 }
    else
      { exitCode := 0, stderrLines := po.2, stdoutLines := [],
        calls := [LibCall.init, LibCall.load inPath, LibCall.render,
                  LibCall.save outPath, LibCall.clean],
        filesWritten := [outPath], finalOptions := some po.1 }

end Ansi2png

namespace Ansi2png

/-! ### Auxiliary definitions for stating the properties. -/

/-- Discriminator: is this call a save call (with any path)? -/
def LibCall.isSave : LibCall → Bool
  | .save _ => true
  | _ => false

/-- Discriminator: is this call a load call (with any path)? -/
def LibCall.isLoad : LibCall → Bool
  | .load _ => true
  | _ => false

/-- Remove one variable from an environment. -/
def envErase (k : String) (env : Env) : Env :=
  fun x => if x = k then none else env x

/-- A concrete default-options value for witnesses (the library defaults
documented in the source header comment: CP437 font, scale 1, 8-bit). -/
def sampleDefaults : Options :=
  { font := ANSILOVE_FONT_CP437, scale_factor := 1, bits := 8, columns := 0,
    mode := 0, icecolors := false }

/-- The empty environment: every `getenv` returns NULL. -/
def emptyEnv : Env := fun _ => none

/-- A concrete well-formed argument vector for witnesses. -/
def argv3 : List String := ["ansi2png", "in.ans", "out.png"]

/-- A library behaviour in which every lifecycle call succeeds. -/
def okLib : AnsiloveLib :=
  { initOk := true, loadOk := true, renderOk := true, saveOk := true,
    errStr := "boom", defaults := sampleDefaults }

/-- A library behaviour in which loading the input file fails. -/
def loadFailLib : AnsiloveLib := { okLib with loadOk := false }

/-- An environment that sets only ANSILOVE_ICECOLORS, to "1". -/
def iceEnv : Env := fun k => if k = "ANSILOVE_ICECOLORS" then some "1" else none

/-! ### Helper lemmas. -/

/-- The diagnostics emitted while populating the options are exactly the
font lookup's diagnostics: no other option assignment prints anything. -/
lemma populateOptions_snd (env : Env) (d : Options) :
    (populateOptions env d).2 = (lookup_font (env "ANSILOVE_FONT")).2 := rfl

/-- Field-by-field description of the populated options: each field is
written by at most one of the sequential assignments, so the sequential
updates amount to an independent per-field computation. -/
lemma populateOptions_fst (env : Env) (d : Options) :
    (populateOptions env d).1 =
      { font := (lookup_font (env "ANSILOVE_FONT")).1,
        scale_factor :=
          match env "ANSILOVE_SCALE" with
          | some v => uint8OfInt (atoi v)
          | none => d.scale_factor,
        bits :=
          match env "ANSILOVE_BITS" with
          | some v => uint8OfInt (atoi v)
          | none => d.bits,
        columns :=
          match env "ANSILOVE_COLUMNS" with
          | some v => int16OfInt (atoi v)
          | none => d.columns,
        mode :=
          match env "ANSILOVE_MODE" with
          | some v =>
            if strcaseEq v "ced" then ANSILOVE_MODE_CED
            else if strcaseEq v "transparent" then ANSILOVE_MODE_TRANSPARENT
            else if strcaseEq v "workbench" then ANSILOVE_MODE_WORKBENCH
            else d.mode
          | none => d.mode,
        icecolors :=
          match env "ANSILOVE_ICECOLORS" with
          | some v => if v = "1" then true else d.icecolors
          | none => d.icecolors } := by
  unfold populateOptions
  cases hS : env "ANSILOVE_SCALE" <;>
    cases hB : env "ANSILOVE_BITS" <;>
      cases hC : env "ANSILOVE_COLUMNS" <;>
        cases hM : env "ANSILOVE_MODE" <;>
          cases hI : env "ANSILOVE_ICECOLORS" <;>
            simp only [] <;> split_ifs <;> rfl

/-- A name matching no table entry case-insensitively is not found by the
scanning loop. -/
lemma lookupFontIn_eq_none (m : List (String × Nat)) (name : String)
    (h : ∀ p ∈ m, strcaseEq name p.1 = false) :
    lookupFontIn m name = none := by
  induction m with
  | nil => rfl
  | cons p rest ih =>
    obtain ⟨n, v⟩ := p
    simp only [lookupFontIn]
    rw [h ⟨n, v⟩ (List.mem_cons_self _ _)]
    exact ih fun q hq => h q (List.mem_cons_of_mem _ hq)

/-- A name matching some table entry case-insensitively is found by the
scanning loop. -/
lemma lookupFontIn_isSome (m : List (String × Nat)) (name : String)
    (h : ∃ p ∈ m, strcaseEq name p.1 = true) :
    ∃ v, lookupFontIn m name = some v := by
  induction m with
  | nil => simp at h
  | cons p rest ih =>
    obtain ⟨n, v⟩ := p
    simp only [lookupFontIn]
    by_cases hn : strcaseEq name n = true
    · exact ⟨v, by simp [hn]⟩
    · rw [if_neg (by simpa using hn)]
      apply ih
      rcases h with ⟨q, hq, hqe⟩
      rcases List.mem_cons.mp hq with rfl | hq'
      · exact absurd hqe hn
      · exact ⟨q, hq', hqe⟩

/-- The scanning loop only looks at the case-folded input. -/
lemma lookupFontIn_congr (m : List (String × Nat)) (s t : String)
    (h : caseFold s = caseFold t) :
    lookupFontIn m s = lookupFontIn m t := by
  induction m with
  | nil => rfl
  | cons p rest ih =>
    obtain ⟨n, v⟩ := p
    simp only [lookupFontIn, strcaseEq, h, ih]

/-- The font lookup emits either nothing or a single unknown-font warning. -/
lemma lookup_font_warns (x : Option String) :
    (lookup_font x).2 = [] ∨ ∃ s, (lookup_font x).2 = [Msg.unknownFont s] := by
  cases x with
  | none => exact Or.inl rfl
  | some name =>
    cases h : lookupFontIn font_map name <;> simp [lookup_font, h]

/-- No diagnostic other than an unknown-font warning occurs among the font
lookup's output. -/
lemma lookup_font_warns_count (x : Option String) (m : Msg)
    (h : ∀ s, m ≠ Msg.unknownFont s) :
    ((lookup_font x).2).count m = 0 := by
  rcases lookup_font_warns x with he | ⟨s, he⟩ <;> rw [he]
  · rfl
  · simp [List.count_cons, (h s).symm]

end Ansi2png

namespace Ansi2png

/-- Claim C1: the library context is released exactly once before exit on
every run whose init succeeds -- on the success path and on each of the
load/render/save failure paths -- and zero times when the argument count
is wrong or init itself fails. -/
theorem context_released_exactly_once (argv : List String) (env : Env) (lib : AnsiloveLib) :
    ((run argv env lib).calls).count LibCall.clean =
      if argv.length = 3 ∧ lib.initOk = true then 1 else 0 := by
  unfold run
  by_cases h3 : argv.length = 3
  · cases hI : lib.initOk
    · simp [h3, hI]
    · cases hL : lib.loadOk <;> cases hR : lib.renderOk <;> cases hS : lib.saveOk <;>
        simp [h3, hI, hL, hR, hS, List.count_cons]
  · simp [h3]

/-- Claim C2: with a correct argument count, the run exits 0 iff init,
load, render and save all succeed; each failing stage exits 1 having
printed exactly one diagnostic naming that stage and carrying the library
error string, with the failing stage called exactly once (no retry) and
no later stage called. -/
theorem exit_iff_all_succeed (argv : List String) (env : Env) (lib : AnsiloveLib)
    (h3 : argv.length = 3) :
    ((run argv env lib).exitCode = 0 ↔
      lib.initOk = true ∧ lib.loadOk = true ∧ lib.renderOk = true ∧ lib.saveOk = true) ∧
    (lib.initOk = true → lib.loadOk = false →
      (run argv env lib).exitCode = 1 ∧
      ((run argv env lib).stderrLines).count (Msg.loadFailed lib.errStr) = 1 ∧
      LibCall.render ∉ (run argv env lib).calls ∧
      ((run argv env lib).calls).countP LibCall.isSave = 0 ∧
      ((run argv env lib).calls).countP LibCall.isLoad = 1) ∧
    (lib.initOk = true → lib.loadOk = true → lib.renderOk = false →
      (run argv env lib).exitCode = 1 ∧
      ((run argv env lib).stderrLines).count (Msg.renderFailed lib.errStr) = 1 ∧
      ((run argv env lib).calls).countP LibCall.isSave = 0 ∧
      ((run argv env lib).calls).count LibCall.render = 1) ∧
    (lib.initOk = true → lib.loadOk = true → lib.renderOk = true → lib.saveOk = false →
      (run argv env lib).exitCode = 1 ∧
      ((run argv env lib).stderrLines).count (Msg.saveFailed lib.errStr) = 1 ∧
      ((run argv env lib).calls).countP LibCall.isSave = 1) := by
  cases hI : lib.initOk <;> cases hL : lib.loadOk <;> cases hR : lib.renderOk <;>
    cases hS : lib.saveOk <;>
      unfold run <;>
        simp [h3, hI, hL, hR, hS, List.count_append, List.countP_cons, List.count_cons,
              populateOptions_snd, lookup_font_warns_count, LibCall.isSave, LibCall.isLoad]

/-- Witness for C2: a run with three arguments whose load fails exits 1
with exactly one load-failure diagnostic, never calls render or save, and
calls load once. -/
theorem exit_iff_all_succeed_witness :
    (run argv3 emptyEnv loadFailLib).exitCode = 1 ∧
    ((run argv3 emptyEnv loadFailLib).stderrLines).count (Msg.loadFailed "boom") = 1 ∧
    LibCall.render ∉ (run argv3 emptyEnv loadFailLib).calls ∧
    ((run argv3 emptyEnv loadFailLib).calls).countP LibCall.isSave = 0 ∧
    ((run argv3 emptyEnv loadFailLib).calls).countP LibCall.isLoad = 1 :=
  (exit_iff_all_succeed argv3 emptyEnv loadFailLib rfl).2.1 rfl rfl

/-- Claim C3: with any argument count other than three (program name plus
two positionals), the run exits 1, prints only the usage message, makes no
library call and writes no file. -/
theorem wrong_argc_no_calls (argv : List String) (env : Env) (lib : AnsiloveLib)
    (h : argv.length ≠ 3) :
    (run argv env lib).exitCode = 1 ∧
    (run argv env lib).stderrLines = [Msg.usage] ∧
    (run argv env lib).calls = [] ∧
    (run argv env lib).filesWritten = [] := by
  unfold run
  simp [h]

/-- Witness for C3: a run with no positional arguments. -/
theorem wrong_argc_no_calls_witness :
    (run ["ansi2png"] emptyEnv okLib).exitCode = 1 ∧
    (run ["ansi2png"] emptyEnv okLib).stderrLines = [Msg.usage] ∧
    (run ["ansi2png"] emptyEnv okLib).calls = [] ∧
    (run ["ansi2png"] emptyEnv okLib).filesWritten = [] :=
  wrong_argc_no_calls ["ansi2png"] emptyEnv okLib (by decide)

/-- Claim C4: starting from a library default of false, the iCE-colors
flag ends up true iff the ANSILOVE_ICECOLORS variable is set to exactly
the string "1". -/
theorem icecolors_exact_match (env : Env) (d : Options) (hd : d.icecolors = false) :
    ((populateOptions env d).1.icecolors = true ↔ env "ANSILOVE_ICECOLORS" = some "1") := by
  rw [populateOptions_fst]
  cases h : env "ANSILOVE_ICECOLORS" with
  | none => simp [hd]
  | some v =>
    by_cases hv : v = "1"
    · subst hv; simp
    · simp [hv, hd]

/-- Witness for C4: the environment that sets ANSILOVE_ICECOLORS to "1". -/
theorem icecolors_exact_match_witness :
    ((populateOptions iceEnv sampleDefaults).1.icecolors = true ↔
      iceEnv "ANSILOVE_ICECOLORS" = some "1") :=
  icecolors_exact_match iceEnv sampleDefaults rfl

/-- Claim C5: a font name matching no table entry case-insensitively makes
the lookup return the CP437 default together with exactly one warning
naming that value; an absent variable takes the default silently; and the
run still proceeds to the load stage regardless. -/
theorem unknown_font_fallback (name : String) (argv : List String) (env : Env)
    (lib : AnsiloveLib)
    (h : ∀ p ∈ font_map, strcaseEq name p.1 = false)
    (h3 : argv.length = 3) (hI : lib.initOk = true) :
    lookup_font (some name) = (ANSILOVE_FONT_CP437, [Msg.unknownFont name]) ∧
    lookup_font none = (ANSILOVE_FONT_CP437, []) ∧
    LibCall.load (argv.getD 1 "") ∈ (run argv env lib).calls := by
  refine ⟨?_, rfl, ?_⟩
  · simp [lookup_font, lookupFontIn_eq_none font_map name h]
  · unfold run
    cases hL : lib.loadOk <;> cases hR : lib.renderOk <;> cases hS : lib.saveOk <;>
      simp [h3, hI, hL, hR, hS]

/-- Witness for C5: the unknown font name "wat". -/
theorem unknown_font_fallback_witness :
    lookup_font (some "wat") = (ANSILOVE_FONT_CP437, [Msg.unknownFont "wat"]) ∧
    lookup_font none = (ANSILOVE_FONT_CP437, []) ∧
    LibCall.load "in.ans" ∈ (run argv3 emptyEnv okLib).calls :=
  unknown_font_fallback "wat" argv3 emptyEnv okLib (by decide) rfl rfl

/-- Claim C6: when the input matches some table entry case-insensitively,
the font lookup is invariant under changing the letter case of its input:
any two case variants select the identical font identifier. -/
theorem font_lookup_case_insensitive (s t : String)
    (hmatch : ∃ p ∈ font_map, strcaseEq t p.1 = true)
    (hcase : caseFold s = caseFold t) :
    lookup_font (some s) = lookup_font (some t) := by
  obtain ⟨v, hv⟩ := lookupFontIn_isSome font_map t hmatch
  simp [lookup_font, lookupFontIn_congr font_map s t hcase, hv]

/-- Witness for C6: "cp437" and "CP437" select the same font. -/
theorem font_lookup_case_insensitive_witness :
    lookup_font (some "cp437") = lookup_font (some "CP437") :=
  font_lookup_case_insensitive "cp437" "CP437" (by decide) (by decide)

/-- Claim C7: the rendering mode is a case-insensitive match against
exactly the tokens "ced", "transparent" and "workbench", every other value
and the unset case leaving the library default; and the matching is
silent: the run's exit code and error-stream output are unchanged by
removing the ANSILOVE_MODE variable. -/
theorem mode_tokens_silent (env : Env) (d : Options) (argv : List String)
    (lib : AnsiloveLib) :
    ((populateOptions env d).1.mode =
      match env "ANSILOVE_MODE" with
      | some v =>
        if strcaseEq v "ced" then ANSILOVE_MODE_CED
        else if strcaseEq v "transparent" then ANSILOVE_MODE_TRANSPARENT
        else if strcaseEq v "workbench" then ANSILOVE_MODE_WORKBENCH
        else d.mode
      | none => d.mode) ∧
    (populateOptions env d).2 = (lookup_font (env "ANSILOVE_FONT")).2 ∧
    (run argv env lib).exitCode = (run argv (envErase "ANSILOVE_MODE" env) lib).exitCode ∧
    (run argv env lib).stderrLines =
      (run argv (envErase "ANSILOVE_MODE" env) lib).stderrLines := by
  refine ⟨?_, rfl, ?_, ?_⟩
  · rw [populateOptions_fst]
  · unfold run
    by_cases h3 : argv.length = 3
    · cases hI : lib.initOk <;> cases hL : lib.loadOk <;> cases hR : lib.renderOk <;>
        cases hS : lib.saveOk <;> simp [h3, hI, hL, hR, hS]
    · simp [h3]
  · unfold run
    by_cases h3 : argv.length = 3
    · cases hI : lib.initOk <;> cases hL : lib.loadOk <;> cases hR : lib.renderOk <;>
        cases hS : lib.saveOk <;>
          simp [h3, hI, hL, hR, hS, populateOptions_snd, envErase]
    · simp [h3]

/-- Claim C8: the scale, bits and columns variables are parsed with `atoi`
and never validated: the stored value is exactly the `atoi` result under
the C cast at the assignment site (modulo 2^8 for scale and bits, signed
16-bit reduction for columns), an absent variable leaves the library
default untouched, non-numeric text yields 0, "256" becomes 0 as a scale
or bits value, and 40000 becomes -25536 as a columns value. -/
theorem numeric_envs_unvalidated (env : Env) (d : Options) :
    ((populateOptions env d).1.scale_factor =
      match env "ANSILOVE_SCALE" with
      | some v => uint8OfInt (atoi v)
      | none => d.scale_factor) ∧
    ((populateOptions env d).1.bits =
      match env "ANSILOVE_BITS" with
      | some v => uint8OfInt (atoi v)
      | none => d.bits) ∧
    ((populateOptions env d).1.columns =
      match env "ANSILOVE_COLUMNS" with
      | some v => int16OfInt (atoi v)
      | none => d.columns) ∧
    atoi "abc" = 0 ∧
    uint8OfInt (atoi "256") = 0 ∧
    int16OfInt (atoi "40000") = -25536 :=
  ⟨by rw [populateOptions_fst], by rw [populateOptions_fst], by rw [populateOptions_fst],
   by decide, by decide, by decide⟩

/-- Claim C9: no run writes anything to standard output, and a run that
exits 0 writes exactly the output image at the second positional path. -/
theorem never_stdout_and_success_output (argv : List String) (env : Env)
    (lib : AnsiloveLib) :
    (run argv env lib).stdoutLines = [] ∧
    ((run argv env lib).exitCode = 0 →
      (run argv env lib).filesWritten = [argv.getD 2 ""]) := by
  unfold run
  by_cases h3 : argv.length = 3
  · cases hI : lib.initOk
    · simp [h3, hI]
    · cases hL : lib.loadOk <;> cases hR : lib.renderOk <;> cases hS : lib.saveOk <;>
        simp [h3, hI, hL, hR, hS]
  · simp [h3]

/-- Witness for C9: a fully successful run writes only out.png and nothing
to standard output. -/
theorem never_stdout_and_success_output_witness :
    (run argv3 emptyEnv okLib).stdoutLines = [] ∧
    (run argv3 emptyEnv okLib).filesWritten = ["out.png"] :=
  ⟨(never_stdout_and_success_output argv3 emptyEnv okLib).1,
   (never_stdout_and_success_output argv3 emptyEnv okLib).2 rfl⟩

/-- Claim C10: a font variable set to the empty string takes the
unknown-name path -- warning naming the empty value, CP437 fallback --
while only the absent (NULL) variable takes the silent default path. -/
theorem empty_font_value_warns :
    lookup_font (some "") = (ANSILOVE_FONT_CP437, [Msg.unknownFont ""]) ∧
    lookup_font none = (ANSILOVE_FONT_CP437, []) := by
  constructor <;> rfl

end Ansi2png
